import Mathlib

/-!
Shallow embedding of the GIRO simulation test harness
(`scripts/simulation/continuous_test_runner.py` and
`scripts/simulation/multi_pc_test_harness.py`), together with proofs about
the health-check system, the sync validator, the test-execution framework
and the result registry.

Python dictionaries are modelled as association lists with dict update
semantics (insertion order preserved, updating an existing key keeps its
position, value overwritten).  Python floats are modelled as exact
rationals; machine wall-clock reads are modelled as rational time stamps
passed in explicitly.
-/

namespace PyDict

/-- Python dict assignment `d[k] = v`: if the key is present its value is
overwritten in place (keeping its position), otherwise the pair is appended
at the end — exactly the insertion-order semantics of a Python dict. -/
def dictSet {α : Type} : List (String × α) → String → α → List (String × α)
  | [], k, v => [(k, v)]
  | p :: d, k, v => if p.1 = k then (k, v) :: d else p :: dictSet d k v

/-- Python dict lookup `d.get(k)`. -/
def dictGet {α : Type} : List (String × α) → String → Option α
  | [], _ => none
  | p :: d, k => if p.1 = k then some p.2 else dictGet d k

/-- Python `collections.defaultdict` read: missing keys read as the
default. -/
def dictGetD {α : Type} (d : List (String × α)) (k : String) (dflt : α) : α :=
  (dictGet d k).getD dflt

/-- The keys of an association list are pairwise distinct (true of every
list built with `dictSet` only, as a Python dict is). -/
def NodupKeys {α : Type} (d : List (String × α)) : Prop :=
  (d.map Prod.fst).Nodup

end PyDict

namespace ContinuousTestRunner

open PyDict

/-- One entry of `PC_CONFIG` in `continuous_test_runner.py`. -/
structure PCInfo where
  id : String
  role : String
  type : String
  emoji : String
deriving Repr, DecidableEq

/-- The fixed 10-node roster `PC_CONFIG` of `continuous_test_runner.py`. -/
def PC_CONFIG : List PCInfo :=
  [⟨"PC-PDV-01", "MASTER", "PDV", "👑"⟩,
   ⟨"PC-PDV-02", "SATELLITE", "PDV", "💰"⟩,
   ⟨"PC-ESTQ", "SATELLITE", "STOCK", "📦"⟩,
   ⟨"PC-GER", "SATELLITE", "MANAGER", "📊"⟩,
   ⟨"PC-VEN-01", "SATELLITE", "SALES", "🛒"⟩,
   ⟨"PC-VEN-02", "SATELLITE", "SALES", "🛒"⟩,
   ⟨"PC-ADM", "SATELLITE", "ADMIN", "🔧"⟩,
   ⟨"PC-FIN", "SATELLITE", "FINANCE", "💵"⟩,
   ⟨"PC-CAD", "SATELLITE", "REGISTER", "📝"⟩,
   ⟨"PC-RESERVA", "SATELLITE", "PDV", "🔄"⟩]

/-- The `HealthStatus` dataclass.  `status` holds one of the strings
`"OK"`, `"WARN"`, `"ERROR"` exactly as in the source. -/
structure HealthStatus where
  pc_id : String
  timestamp : String
  status : String
  db_accessible : Bool := true
  employee_count : Nat := 0
  product_count : Nat := 0
  sale_count : Nat := 0
  network_connected : Bool := true
  last_sync_time : Option String := none
  errors : List String := []
  warnings : List String := []
deriving Repr, DecidableEq

/-- The observations `HealthMonitor.check_pc` makes of one node's external
surfaces: whether the sqlite file exists, the three row counts, presence of
`network.%` settings rows, and what the runtime log contains.
`logReadFault` models an exception raised while reading the log file (the
only statement inside the `try` block that can raise: `db_query` swallows
its own exceptions and returns `[]`). -/
structure PCObservation where
  dbExists : Bool
  employeeCount : Nat
  productCount : Nat
  saleCount : Nat
  hasNetworkSettings : Bool
  logExists : Bool
  logHasMasterConn : Bool
  logHasErrorMarker : Bool
  logReadFault : Option String := none
deriving Repr, DecidableEq

/-- `db_query` of `continuous_test_runner.py`: returns `[]` (unavailable)
when the database file does not exist, and also converts any exception
raised by the query into `[]`; it never propagates a fault to the caller. -/
def db_query {α : Type} (dbExists : Bool) (queryResult : Except String (List α)) :
    List α :=
  if !dbExists then []
  else
    match queryResult with
    | .ok rows => rows
    | .error _ => []

/-- Lines 171–177 of `check_pc` ("Determine final status"). -/
def finalizeStatus (s : HealthStatus) : HealthStatus :=
  if s.errors ≠ [] then { s with status := "ERROR" }
  else if s.warnings ≠ [] then { s with status := "WARN" }
  else { s with status := "OK" }

/-- The "Validate minimums" block of `check_pc` (lines 134–145): the
employee- and product-count validations, each appending to `errors` or
`warnings`. -/
def applyCountChecks (obs : PCObservation) (s : HealthStatus) : HealthStatus :=
  let s2 :=
    if obs.employeeCount = 0 then
      { s with errors := s.errors ++ ["No employees in database"],
               status := "ERROR" }
    else if obs.employeeCount < 3 then
      { s with warnings := s.warnings ++
          ["Low employee count: " ++ toString obs.employeeCount] }
    else s
  if obs.productCount = 0 then
    { s2 with errors := s2.errors ++ ["No products in database"],
              status := "ERROR" }
  else if obs.productCount < 10 then
    { s2 with warnings := s2.warnings ++
        ["Low product count: " ++ toString obs.productCount] }
  else s2

/-- The "Check network settings" block of `check_pc` (lines 147–152). -/
def applyNetworkSettingsCheck (obs : PCObservation) (s : HealthStatus) :
    HealthStatus :=
  if !obs.hasNetworkSettings then
    { s with warnings := s.warnings ++ ["Missing network settings"] }
  else s

/-- The runtime-log block of `check_pc` (lines 155–169), in the case where
the log exists and reading it raised no exception: the master-connection
markers and the error/fatal marker. -/
def applyLogChecks (pcId : String) (obs : PCObservation) (s : HealthStatus) :
    HealthStatus :=
  let s5 :=
    if obs.logHasMasterConn then { s with network_connected := true }
    else if pcId ≠ "PC-PDV-01" then
      { s with network_connected := false,
               warnings := s.warnings ++ ["No master connection in logs"] }
    else s
  if obs.logHasErrorMarker then
    { s5 with warnings := s5.warnings ++ ["Errors found in runtime log"] }
  else s5

/-- `HealthMonitor.check_pc`, the pure part: builds the `HealthStatus` for
one node from its observations.  The early `return` for a missing database
file, the count validations, the network-settings check, the runtime-log
checks and the exception handler (which appends `"Health check failed: e"`
and sets the level to ERROR, skipping the final status determination) are
translated branch for branch. -/
def checkPc (pcId ts : String) (obs : PCObservation) : HealthStatus :=
  let base : HealthStatus := { pc_id := pcId, timestamp := ts, status := "OK" }
  if !obs.dbExists then
    { base with db_accessible := false,
                errors := ["Database file not found"], status := "ERROR" }
  else
    let s1 := { base with employee_count := obs.employeeCount,
                          product_count := obs.productCount,
                          sale_count := obs.saleCount }
    let s4 := applyNetworkSettingsCheck obs (applyCountChecks obs s1)
    if obs.logExists then
      match obs.logReadFault with
      | some e =>
        { s4 with db_accessible := false,
                  errors := s4.errors ++ ["Health check failed: " ++ e],
                  status := "ERROR" }
      | none => finalizeStatus (applyLogChecks pcId obs s4)
    else
      finalizeStatus s4

/-- One alert dict appended to `HealthMonitor.alerts`. -/
structure Alert where
  time : String
  pc_id : String
  level : String
  messages : List String
deriving Repr, DecidableEq

/-- The mutable state of a `HealthMonitor`: `statuses` (dict), `history`
(defaultdict of lists) and `alerts`. -/
structure MonitorState where
  statuses : List (String × HealthStatus) := []
  history : List (String × List HealthStatus) := []
  alerts : List Alert := []
deriving Repr, DecidableEq

/-- `HealthMonitor.check_pc` including its effect on the monitor state.
The missing-database branch `return status` exits *before* the
`with self._lock` block, so in that branch neither `statuses`, `history`
nor `alerts` is touched. -/
def checkPcRun (st : MonitorState) (pcId ts : String) (obs : PCObservation) :
    MonitorState × HealthStatus :=
  let status := checkPc pcId ts obs
  if !obs.dbExists then (st, status)
  else
    ({ statuses := dictSet st.statuses pcId status,
       history := dictSet st.history pcId
         (dictGetD st.history pcId [] ++ [status]),
       alerts := st.alerts ++
         (if status.errors ≠ [] then
            [{ time := status.timestamp, pc_id := pcId, level := "ERROR",
               messages := status.errors }]
          else []) },
     status)

/-- `HealthMonitor.check_all`: runs `check_pc` for every node of
`PC_CONFIG` in roster order. -/
def checkAll (st : MonitorState) (ts : String)
    (obsOf : String → PCObservation) : MonitorState :=
  PC_CONFIG.foldl (fun acc pc => (checkPcRun acc pc.id ts (obsOf pc.id)).1) st

end ContinuousTestRunner

namespace ContinuousTestRunner

open PyDict

/-- One row of `SELECT id, name, sale_price, current_stock FROM products`.
`sale_price` (a Python float) is modelled as an exact rational. -/
structure Product where
  id : String
  name : String
  sale_price : ℚ
  current_stock : Int
deriving Repr, DecidableEq

/-- `{p["id"]: p for p in ps}`: the Python dict comprehension — keys in
order of first occurrence, value of a repeated key overwritten by the later
row. -/
def dictOf (ps : List Product) : List (String × Product) :=
  ps.foldl (fun d p => dictSet d p.id p) []

/-- One inconsistency dict produced by `SyncValidator.validate_products`.
A `MISSING_PRODUCT` issue has `details` set; a `PRICE_MISMATCH` issue has
`master_price`/`local_price` set. -/
structure SyncIssue where
  type : String
  pc_id : String
  product_id : String
  details : Option String := none
  master_price : Option ℚ := none
  local_price : Option ℚ := none
deriving Repr, DecidableEq

/-- Python's built-in `abs` on a float difference, modelled on exact
rationals. -/
def pyAbs (q : ℚ) : ℚ := if q < 0 then -q else q

/-- The body of the per-peer part of `validate_products`: first the
missing-product loop over the master dict, then the price-difference loop,
appended in that order (`issues.append` order of the source). -/
def validateProductsFor (masterDict localDict : List (String × Product))
    (pcId : String) : List SyncIssue :=
  (masterDict.filterMap fun kv =>
    if (dictGet localDict kv.1).isNone then
      some { type := "MISSING_PRODUCT", pc_id := pcId, product_id := kv.1,
             details := some ("Product " ++ kv.2.name ++ " missing on " ++ pcId) }
    else none)
  ++
  (masterDict.filterMap fun kv =>
    match dictGet localDict kv.1 with
    | some lp =>
      if pyAbs (kv.2.sale_price - lp.sale_price) > 1/100 then
        some { type := "PRICE_MISMATCH", pc_id := pcId, product_id := kv.1,
               master_price := some kv.2.sale_price,
               local_price := some lp.sale_price }
      else none
    | none => none)

/-- `SyncValidator.validate_products`, pure part: given each node's
product rows (`db pcId` is what `db_query` returns for that node), compare
the master `PC-PDV-01` against every other roster node in order. -/
def validate_products (db : String → List Product) : List SyncIssue :=
  (PC_CONFIG.filter (fun pc => pc.id ≠ "PC-PDV-01")).flatMap fun pc =>
    validateProductsFor (dictOf (db "PC-PDV-01")) (dictOf (db pc.id)) pc.id

/-- The mutable state of a `SyncValidator`. -/
structure ValidatorState where
  last_check : Option String := none
  inconsistencies : List SyncIssue := []
deriving Repr, DecidableEq

/-- `SyncValidator.validate_products` including its effect on the
validator state: `self.inconsistencies = issues` (full replacement) and
`self.last_check = datetime.now()`. -/
def validateProductsRun (st : ValidatorState) (db : String → List Product)
    (now : String) : ValidatorState × List SyncIssue :=
  let issues := validate_products db
  ({ last_check := some now, inconsistencies := issues }, issues)

/-- `ContinuousTestRunner.run_cycle`, restricted to the two state-bearing
steps the claims are about: `self.monitor.check_all()` followed by
`self.validator.validate_products()`. -/
def runCycle (mon : MonitorState) (val : ValidatorState) (ts : String)
    (obsOf : String → PCObservation) (db : String → List Product)
    (now : String) : MonitorState × ValidatorState :=
  (checkAll mon ts obsOf, (validateProductsRun val db now).1)

/-- Concrete product A of the §8 scenario. -/
def prodA : Product := { id := "A", name := "Alpha", sale_price := 10, current_stock := 3 }

/-- Concrete product B of the §8 scenario. -/
def prodB : Product := { id := "B", name := "Beta", sale_price := 20, current_stock := 4 }

/-- Concrete product C of the §8 scenario. -/
def prodC : Product := { id := "C", name := "Gamma", sale_price := 30, current_stock := 5 }

/-- The §8 scenario datasets: the master (and every peer except `PC-ESTQ`)
holds products A, B, C; the peer `PC-ESTQ` holds only A and B, with equal
fields on both. -/
def scenarioDb : String → List Product := fun pcId =>
  if pcId = "PC-ESTQ" then [prodA, prodB] else [prodA, prodB, prodC]

/-- Datasets where exactly one product is missing on one peer: the master
(and all peers but `PC-ESTQ`) hold product A; `PC-ESTQ` holds nothing. -/
def oneMissingDb : String → List Product := fun pcId =>
  if pcId = "PC-ESTQ" then [] else [prodA]

end ContinuousTestRunner

namespace MultiPcTestHarness

open PyDict

/-- The `TestStatus` enum of `multi_pc_test_harness.py`.  Its members are
exactly `PENDING`, `RUNNING`, `PASSED`, `FAILED`, `SKIPPED`, `ERROR`;
there is no timeout member. -/
inductive TestStatus where
  | PENDING
  | RUNNING
  | PASSED
  | FAILED
  | SKIPPED
  | ERROR
deriving Repr, DecidableEq, Fintype

/-- The `.value` string (status icon) of each `TestStatus` member. -/
def TestStatus.value : TestStatus → String
  | .PENDING => "⏳"
  | .RUNNING => "🔄"
  | .PASSED => "✅"
  | .FAILED => "❌"
  | .SKIPPED => "⏭️"
  | .ERROR => "💥"

/-- The `TestResult` dataclass.  `duration_ms` (a float) is modelled as a
rational.  The untyped `context: Dict[str, Any]` field, which `run_test`
always leaves at its empty default, is omitted. -/
structure TestResult where
  test_id : String
  test_name : String
  pc_id : String
  category : String
  status : TestStatus
  duration_ms : ℚ
  assertions : Nat := 0
  failures : List String := []
  error : Option String := none
deriving Repr, DecidableEq

/-- `TestRegistry`: results dict keyed by `test_id`. -/
structure TestRegistry where
  results : List (String × TestResult) := []
deriving Repr, DecidableEq

/-- `TestRegistry.register`: `self._results[result.test_id] = result`. -/
def TestRegistry.register (reg : TestRegistry) (r : TestResult) : TestRegistry :=
  { results := dictSet reg.results r.test_id r }

/-- Renders the float `passed/total*100` with one decimal place and a
trailing `%` (the `f"{(passed/total*100):.1f}%"` of the source), modelled
by exact rounding to tenths of a percent:
`tenths = ⌊passed/total*1000 + 1/2⌋` via natural-number arithmetic. -/
def fmtPct1 (passed total : Nat) : String :=
  let tenths : Nat := (2000 * passed + total) / (2 * total)
  toString (tenths / 10) ++ "." ++ toString (tenths % 10) ++ "%"

/-- The dict returned by `TestRegistry.get_summary` (minus the raw result
list, which is just `self._results.values()`). -/
structure Summary where
  total : Nat
  passed : Nat
  failed : Nat
  errors : Nat
  pass_rate : String
  duration_s : ℚ
deriving Repr, DecidableEq

/-- `TestRegistry.get_summary`: counts by status and the pass-rate string,
`"N/A"` when no result is registered.  `now` and `startTime` stand for the
two `time.time()` reads. -/
def TestRegistry.get_summary (reg : TestRegistry) (now startTime : ℚ) :
    Summary :=
  let vals := reg.results.map (fun p => p.2)
  let total := vals.length
  let passed := vals.countP (fun r => decide (r.status = TestStatus.PASSED))
  let failed := vals.countP (fun r => decide (r.status = TestStatus.FAILED))
  let errors := vals.countP (fun r => decide (r.status = TestStatus.ERROR))
  { total := total, passed := passed, failed := failed, errors := errors,
    pass_rate := if total > 0 then fmtPct1 passed total else "N/A",
    duration_s := now - startTime }

/-- What a call to `test_fn(pc_id)` can do, as classified by `run_test`:
return a non-`list` value, return a `list` of failure strings (possibly
empty), raise an `AssertionError`, or raise any other exception. -/
inductive TestFnOutcome where
  | retList (failures : List String)
  | retOther
  | assertionError (msg : String)
  | exc (msg : String)
deriving Repr, DecidableEq

/-- The per-invocation inputs of `run_test`: identifiers, the fresh
`uuid4` suffix of the test id, the two `time.time()` reads around the
call, and what the check function did. -/
structure RunTestInput where
  pcId : String
  testName : String
  category : String
  uuidSuffix : String
  startTime : ℚ
  endTime : ℚ
  outcome : TestFnOutcome
deriving Repr, DecidableEq

/-- `run_test`: classifies the outcome of `test_fn`, builds the
`TestResult` (duration in ms measured around the call) and registers it
into the registry — translated branch for branch from the
`try`/`except AssertionError`/`except Exception` of the source. -/
def run_test (reg : TestRegistry) (inp : RunTestInput) :
    TestRegistry × TestResult :=
  let test_id := inp.pcId ++ "_" ++ inp.testName ++ "_" ++ inp.uuidSuffix
  let classified : TestStatus × List String × Option String :=
    match inp.outcome with
    | .retList r => if r ≠ [] then (.FAILED, r, none) else (.PASSED, [], none)
    | .retOther => (.PASSED, [], none)
    | .assertionError m => (.FAILED, [m], none)
    | .exc m => (.ERROR, [], some m)
  let duration := (inp.endTime - inp.startTime) * 1000
  let result : TestResult :=
    { test_id := test_id, test_name := inp.testName, pc_id := inp.pcId,
      category := inp.category, status := classified.1,
      duration_ms := duration, failures := classified.2.1,
      error := classified.2.2 }
  (reg.register result, result)

/-- `test_stock_consistency`, parametrised by what its queries return: the
master's count of products with stock, and the `prod-%` id lists of master
and of the node under test.  The Python sets `master_ids`, `local_ids` and
`missing = master_ids - local_ids` are modelled as a deduplicated list
filtered by non-membership.  A non-empty missing set fails the check only
when it has more than 5 elements; otherwise it is only logged at debug
level. -/
def test_stock_consistency (pcId : String) (masterWithStock : Nat)
    (masterSeedIds localSeedIds : List String) : List String :=
  if pcId = "PC-PDV-01" then
    if masterWithStock < 5 then ["Insufficient products with stock"] else []
  else
    let missing :=
      (masterSeedIds.eraseDups).filter (fun a => !localSeedIds.contains a)
    if missing ≠ [] then
      if missing.length > 5 then
        ["Missing " ++ toString missing.length ++ " seed products on " ++ pcId]
      else []
    else []

/-- What one node's `run_pc_tests` future does: complete with its result
list, or raise. -/
inductive BatchOutcome where
  | completed (results : List TestResult)
  | raised (msg : String)
deriving Repr, DecidableEq

/-- `run_parallel_tests`, lines 1008–1019: one future per node is
submitted, then `as_completed(futures)` — called with *no* timeout
argument — is drained; `future.result()` re-raises a fault that escaped a
node's batch, which is caught and logged for that node only.  Nothing else
is done with the batches: no timeout marking of any kind exists.  The
nondeterministic completion order is modelled as submission order; the
returned list is the per-node error log entries. -/
def run_parallel_tests (batches : List (String × BatchOutcome)) :
    List (String × String) :=
  batches.foldl
    (fun logs b =>
      match b.2 with
      | .completed _ => logs
      | .raised m => logs ++ [(b.1, "Test execution failed: " ++ m)]) []

/-- A registered result with a given id suffix and status, used to build
concrete registries. -/
def sampleResult (n : Nat) (st : TestStatus) : TestResult :=
  { test_id := "t" ++ toString n, test_name := "scenario", pc_id := "PC-PDV-01",
    category := "SYNC", status := st, duration_ms := 1 }

/-- A registry holding 10 results: 7 `PASSED`, 2 `FAILED`, 1 `ERROR`. -/
def sampleRegistry : TestRegistry :=
  { results :=
      [("t1", sampleResult 1 .PASSED), ("t2", sampleResult 2 .PASSED),
       ("t3", sampleResult 3 .PASSED), ("t4", sampleResult 4 .PASSED),
       ("t5", sampleResult 5 .PASSED), ("t6", sampleResult 6 .PASSED),
       ("t7", sampleResult 7 .PASSED), ("t8", sampleResult 8 .FAILED),
       ("t9", sampleResult 9 .FAILED), ("t10", sampleResult 10 .ERROR)] }

end MultiPcTestHarness

namespace PyDict

theorem dictGet_dictSet_self {α : Type} (d : List (String × α)) (k : String)
    (v : α) : dictGet (dictSet d k v) k = some v := by
  induction d with
  | nil => simp [dictSet, dictGet]
  | cons p d ih =>
    by_cases hp : p.1 = k
    · simp [dictSet, dictGet, hp]
    · simp [dictSet, dictGet, hp, ih]

theorem dictGet_dictSet_ne {α : Type} (d : List (String × α)) (k k' : String)
    (v : α) (hne : k' ≠ k) : dictGet (dictSet d k v) k' = dictGet d k' := by
  induction d with
  | nil =>
    have : ¬ (k = k') := fun h => hne h.symm
    simp [dictSet, dictGet, this]
  | cons p d ih =>
    by_cases hp : p.1 = k
    · have hk : ¬ (k = k') := fun h => hne h.symm
      have hp' : ¬ (p.1 = k') := by rw [hp]; exact hk
      simp [dictSet, dictGet, hp, hk, hp']
    · by_cases hq : p.1 = k'
      · simp [dictSet, dictGet, hp, hq, hne]
      · simp [dictSet, dictGet, hp, hq, ih]

theorem dictSet_length_of_get_none {α : Type} (d : List (String × α))
    (k : String) (v : α) (h : dictGet d k = none) :
    (dictSet d k v).length = d.length + 1 := by
  induction d with
  | nil => simp [dictSet]
  | cons p d ih =>
    by_cases hp : p.1 = k
    · simp [dictGet, hp] at h
    · simp only [dictGet, if_neg hp] at h
      simp [dictSet, hp, ih h]

theorem mem_of_dictGet_eq_some {α : Type} (d : List (String × α))
    (k : String) (v : α) (h : dictGet d k = some v) : (k, v) ∈ d := by
  induction d with
  | nil => simp [dictGet] at h
  | cons p d ih =>
    by_cases hp : p.1 = k
    · simp only [dictGet, if_pos hp, Option.some.injEq] at h
      cases p
      simp_all
    · simp only [dictGet, if_neg hp] at h
      exact List.mem_cons_of_mem _ (ih h)

theorem dictGet_eq_some_of_mem_of_nodupKeys {α : Type}
    (d : List (String × α)) (k : String) (v : α) (hnd : NodupKeys d)
    (h : (k, v) ∈ d) : dictGet d k = some v := by
  induction d with
  | nil => simp at h
  | cons p d ih =>
    unfold NodupKeys at hnd
    simp only [List.map_cons, List.nodup_cons] at hnd
    rcases List.mem_cons.mp h with h | h
    · subst h
      simp [dictGet]
    · have hp : p.1 ≠ k := by
        intro hk
        exact hnd.1 (hk ▸ (List.mem_map.mpr ⟨(k, v), h, rfl⟩))
      simp only [dictGet, if_neg hp]
      exact ih hnd.2 h

theorem mem_keys_dictSet {α : Type} (d : List (String × α)) (k a : String)
    (v : α) (h : a ∈ (dictSet d k v).map Prod.fst) :
    a ∈ d.map Prod.fst ∨ a = k := by
  induction d with
  | nil => simp [dictSet] at h; simp [h]
  | cons p d ih =>
    by_cases hp : p.1 = k
    · simp only [dictSet, if_pos hp, List.map_cons, List.mem_cons] at h
      rcases h with h | h
      · right; exact h
      · left; simp [h]
    · simp only [dictSet, if_neg hp, List.map_cons, List.mem_cons] at h
      rcases h with h | h
      · left; simp [h]
      · rcases ih h with h | h
        · left; simp [h]
        · right; exact h

theorem nodupKeys_dictSet {α : Type} (d : List (String × α)) (k : String)
    (v : α) (hnd : NodupKeys d) : NodupKeys (dictSet d k v) := by
  induction d with
  | nil => simp [dictSet, NodupKeys]
  | cons p d ih =>
    unfold NodupKeys at hnd ⊢
    simp only [List.map_cons, List.nodup_cons] at hnd
    by_cases hp : p.1 = k
    · simp only [dictSet, if_pos hp, List.map_cons, List.nodup_cons]
      exact ⟨hp ▸ hnd.1, hnd.2⟩
    · simp only [dictSet, if_neg hp, List.map_cons, List.nodup_cons]
      refine ⟨?_, ih hnd.2⟩
      intro hmem
      rcases mem_keys_dictSet d k p.1 v hmem with h | h
      · exact hnd.1 h
      · exact hp h

end PyDict

namespace ContinuousTestRunner

theorem dictOf_nodupKeys (ps : List Product) : PyDict.NodupKeys (dictOf ps) := by
  unfold dictOf
  suffices h : ∀ d, PyDict.NodupKeys d →
      PyDict.NodupKeys (ps.foldl (fun d p => PyDict.dictSet d p.id p) d) by
    exact h [] (by simp [PyDict.NodupKeys])
  induction ps with
  | nil => intro d hd; simpa using hd
  | cons p ps ih =>
    intro d hd
    exact ih _ (PyDict.nodupKeys_dictSet d p.id p hd)

theorem finalizeStatus_level_invariant (s : HealthStatus) :
    ((finalizeStatus s).status = "ERROR" ↔ (finalizeStatus s).errors ≠ []) ∧
    ((finalizeStatus s).status = "WARN" ↔
      ((finalizeStatus s).errors = [] ∧ (finalizeStatus s).warnings ≠ [])) ∧
    ((finalizeStatus s).errors = [] ∧ (finalizeStatus s).warnings = [] →
      (finalizeStatus s).status = "OK") := by
  have hEW : ("ERROR" : String) ≠ "WARN" := by decide
  have hWE : ("WARN" : String) ≠ "ERROR" := by decide
  have hOE : ("OK" : String) ≠ "ERROR" := by decide
  have hOW : ("OK" : String) ≠ "WARN" := by decide
  unfold finalizeStatus
  by_cases he : s.errors = []
  · by_cases hw : s.warnings = []
    · simp [he, hw, hOE, hOW]
    · simp [he, hw, hWE]
  · simp [he, hEW]

/-- C1: every `HealthStatus` produced by `check_pc` — including the
dataset-missing early return and the internal-exception handler — has
level `"ERROR"` iff its `errors` list is non-empty, level `"WARN"` iff
`errors` is empty and `warnings` is non-empty, and level `"OK"` when both
are empty. -/
theorem c1_health_status_level_invariant (pcId ts : String)
    (obs : PCObservation) :
    ((checkPc pcId ts obs).status = "ERROR" ↔
      (checkPc pcId ts obs).errors ≠ []) ∧
    ((checkPc pcId ts obs).status = "WARN" ↔
      ((checkPc pcId ts obs).errors = [] ∧
        (checkPc pcId ts obs).warnings ≠ [])) ∧
    ((checkPc pcId ts obs).errors = [] ∧ (checkPc pcId ts obs).warnings = [] →
      (checkPc pcId ts obs).status = "OK") := by
  have hEW : ("ERROR" : String) ≠ "WARN" := by decide
  unfold checkPc
  by_cases hdb : obs.dbExists
  · simp only [hdb, Bool.not_true, Bool.false_eq_true, if_false]
    by_cases hlog : obs.logExists
    · simp only [hlog, if_true]
      cases hf : obs.logReadFault with
      | some e => simp [hEW]
      | none => exact finalizeStatus_level_invariant _
    · simp only [hlog, Bool.false_eq_true, if_false]
      exact finalizeStatus_level_invariant _
  · simp only [Bool.not_eq_true] at hdb
    simp [hdb, hEW]

end ContinuousTestRunner

namespace ContinuousTestRunner

open PyDict

/-- C4: for a node whose dataset does not yet exist, `db_query` reports
unavailability as `[]` (it is total — no fault reaches the caller), and
`check_pc` yields a `HealthStatus` with `db_accessible = false`, exactly
one error, no warnings, all count fields left at their unpopulated
defaults, short-circuiting every further check: the result is exactly the
early-return record. -/
theorem c4_missing_dataset_short_circuit (pcId ts : String)
    (obs : PCObservation) (h : obs.dbExists = false) :
    (∀ (α : Type) (q : Except String (List α)), db_query obs.dbExists q = []) ∧
    checkPc pcId ts obs
      = { pc_id := pcId, timestamp := ts, status := "ERROR",
          db_accessible := false, errors := ["Database file not found"] } ∧
    (checkPc pcId ts obs).db_accessible = false ∧
    (checkPc pcId ts obs).errors.length = 1 ∧
    (checkPc pcId ts obs).warnings = [] ∧
    (checkPc pcId ts obs).employee_count = 0 ∧
    (checkPc pcId ts obs).product_count = 0 ∧
    (checkPc pcId ts obs).sale_count = 0 := by
  refine ⟨?_, ?_⟩
  · intro α q
    simp [db_query, h]
  · simp [checkPc, h]

theorem c4_missing_dataset_short_circuit_witness :
    (checkPc "PC-ESTQ" "t0"
        { dbExists := false, employeeCount := 0, productCount := 0,
          saleCount := 0, hasNetworkSettings := false, logExists := false,
          logHasMasterConn := false, logHasErrorMarker := false }).errors
      = ["Database file not found"] ∧
    db_query (α := Nat) false (.error "no such table") = [] := by
  have h := c4_missing_dataset_short_circuit "PC-ESTQ" "t0"
    { dbExists := false, employeeCount := 0, productCount := 0,
      saleCount := 0, hasNetworkSettings := false, logExists := false,
      logHasMasterConn := false, logHasErrorMarker := false } rfl
  exact ⟨by rw [h.2.1], h.1 Nat (.error "no such table")⟩

/-- C8, amended: on a cycle where the node's dataset exists, exactly one
new `HealthStatus` is appended to that node's history and other nodes'
histories are untouched; but on a dataset-missing cycle the early return
skips the append entirely, so the history does **not** grow by one on
every cycle. -/
theorem c8_history_append_when_db_exists (st : MonitorState)
    (pcId ts : String) (obs : PCObservation) (h : obs.dbExists = true) :
    dictGetD (checkPcRun st pcId ts obs).1.history pcId []
      = dictGetD st.history pcId [] ++ [checkPc pcId ts obs] ∧
    (dictGetD (checkPcRun st pcId ts obs).1.history pcId []).length
      = (dictGetD st.history pcId []).length + 1 ∧
    (∀ k, k ≠ pcId →
      dictGetD (checkPcRun st pcId ts obs).1.history k []
        = dictGetD st.history k []) := by
  unfold checkPcRun
  simp only [h, Bool.not_true, Bool.false_eq_true, if_false]
  refine ⟨?_, ?_, ?_⟩
  · simp [dictGetD, dictGet_dictSet_self]
  · simp [dictGetD, dictGet_dictSet_self]
  · intro k hk
    simp [dictGetD, dictGet_dictSet_ne _ _ _ _ hk]

theorem c8_history_append_when_db_exists_witness :
    dictGetD ((checkPcRun { statuses := [], history := [], alerts := [] }
        "PC-GER" "t0"
        { dbExists := true, employeeCount := 5, productCount := 50,
          saleCount := 0, hasNetworkSettings := true, logExists := false,
          logHasMasterConn := false, logHasErrorMarker := false }).1.history)
      "PC-GER" []
      = [checkPc "PC-GER" "t0"
          { dbExists := true, employeeCount := 5, productCount := 50,
            saleCount := 0, hasNetworkSettings := true, logExists := false,
            logHasMasterConn := false, logHasErrorMarker := false }] := by
  have h := (c8_history_append_when_db_exists
    { statuses := [], history := [], alerts := [] } "PC-GER" "t0"
    { dbExists := true, employeeCount := 5, productCount := 50,
      saleCount := 0, hasNetworkSettings := true, logExists := false,
      logHasMasterConn := false, logHasErrorMarker := false } rfl).1
  rw [h]
  rfl

/-- C8 fails as stated: on a cycle where the node's dataset is missing,
`check_pc` returns before the `with self._lock` block, so nothing is
appended to the node's history — after one such cycle the history has
length 0, not 1. -/
theorem c8_history_counterexample :
    (dictGetD ((checkPcRun { statuses := [], history := [], alerts := [] }
        "PC-ESTQ" "t0"
        { dbExists := false, employeeCount := 0, productCount := 0,
          saleCount := 0, hasNetworkSettings := false, logExists := false,
          logHasMasterConn := false, logHasErrorMarker := false }).1.history)
      "PC-ESTQ" []).length = 0 ∧ (0 : Nat) ≠ 1 := by
  exact ⟨rfl, by decide⟩

end ContinuousTestRunner

namespace ContinuousTestRunner

open PyDict

/-- C7, amended: on every cycle that reaches the locked section (dataset
exists), exactly one `Alert` — carrying the status timestamp, the node id,
level `"ERROR"` and the full error list — is appended iff the new
`HealthStatus` has non-empty errors, *regardless of the previous level*;
the dataset-missing early return appends no alert; a cycle's sync
validation contributes nothing to the alert list (divergence findings
generate no alerts); and existing alerts are only ever appended after,
never removed or mutated. -/
theorem c7_alert_per_error_cycle (st : MonitorState) (pcId ts : String)
    (obs : PCObservation) :
    (obs.dbExists = true →
      (checkPcRun st pcId ts obs).1.alerts
        = st.alerts ++
          (if (checkPc pcId ts obs).errors ≠ [] then
             [{ time := (checkPc pcId ts obs).timestamp, pc_id := pcId,
                level := "ERROR",
                messages := (checkPc pcId ts obs).errors }]
           else [])) ∧
    (obs.dbExists = false → (checkPcRun st pcId ts obs).1.alerts = st.alerts) ∧
    (∀ (mon : MonitorState) (val : ValidatorState)
       (obsOf : String → PCObservation) (db : String → List Product)
       (now : String),
      (runCycle mon val ts obsOf db now).1.alerts
        = (checkAll mon ts obsOf).alerts) := by
  refine ⟨?_, ?_, ?_⟩
  · intro h
    unfold checkPcRun
    simp [h]
  · intro h
    unfold checkPcRun
    simp [h]
  · intro mon val obsOf db now
    rfl

theorem c7_alert_per_error_cycle_witness :
    (checkPcRun { statuses := [], history := [], alerts := [] }
        "PC-GER" "t0"
        { dbExists := true, employeeCount := 0, productCount := 50,
          saleCount := 0, hasNetworkSettings := true, logExists := false,
          logHasMasterConn := false, logHasErrorMarker := false }).1.alerts
      = [{ time := "t0", pc_id := "PC-GER", level := "ERROR",
           messages := ["No employees in database"] }] := by
  have h := (c7_alert_per_error_cycle
    { statuses := [], history := [], alerts := [] } "PC-GER" "t0"
    { dbExists := true, employeeCount := 0, productCount := 50,
      saleCount := 0, hasNetworkSettings := true, logExists := false,
      logHasMasterConn := false, logHasErrorMarker := false }).1 rfl
  rw [h]
  rfl

/-- C7 fails as stated: an alert is generated on *every* cycle whose
status has errors, not only on a transition into ERROR.  Running two
consecutive cycles with the same erroring node — the second cycle starts
with the previous level already `"ERROR"`, so no new transition occurs —
appends two alerts, where the claim requires one. -/
theorem c7_alert_counterexample :
    ((checkPcRun ((checkPcRun { statuses := [], history := [], alerts := [] }
        "PC-GER" "t0"
        { dbExists := true, employeeCount := 0, productCount := 50,
          saleCount := 0, hasNetworkSettings := true, logExists := false,
          logHasMasterConn := false, logHasErrorMarker := false }).1)
        "PC-GER" "t1"
        { dbExists := true, employeeCount := 0, productCount := 50,
          saleCount := 0, hasNetworkSettings := true, logExists := false,
          logHasMasterConn := false, logHasErrorMarker := false }).1.alerts).length
      = 2 ∧
    (Option.map (fun s => s.status)
      (dictGet (checkPcRun { statuses := [], history := [], alerts := [] }
        "PC-GER" "t0"
        { dbExists := true, employeeCount := 0, productCount := 50,
          saleCount := 0, hasNetworkSettings := true, logExists := false,
          logHasMasterConn := false, logHasErrorMarker := false }).1.statuses
        "PC-GER")
      = some "ERROR") ∧
    (2 : Nat) ≠ 1 := by
  refine ⟨rfl, rfl, by decide⟩

end ContinuousTestRunner

namespace ContinuousTestRunner

open PyDict

theorem mem_validateProductsFor_elim (M L : List (String × Product))
    (p : String) (i : SyncIssue) (h : i ∈ validateProductsFor M L p) :
    (∃ kv, kv ∈ M ∧ dictGet L kv.1 = none ∧
      i = { type := "MISSING_PRODUCT", pc_id := p, product_id := kv.1,
            details := some ("Product " ++ kv.2.name ++ " missing on " ++ p) }) ∨
    (∃ kv lp, kv ∈ M ∧ dictGet L kv.1 = some lp ∧
      pyAbs (kv.2.sale_price - lp.sale_price) > 1/100 ∧
      i = { type := "PRICE_MISMATCH", pc_id := p, product_id := kv.1,
            master_price := some kv.2.sale_price,
            local_price := some lp.sale_price }) := by
  unfold validateProductsFor at h
  rcases List.mem_append.mp h with h | h
  · left
    rcases List.mem_filterMap.mp h with ⟨kv, hkv, hf⟩
    by_cases hg : (dictGet L kv.1).isNone = true
    · simp only [hg, if_true, Option.some.injEq] at hf
      exact ⟨kv, hkv, Option.isNone_iff_eq_none.mp hg, hf.symm⟩
    · simp [hg] at hf
  · right
    rcases List.mem_filterMap.mp h with ⟨kv, hkv, hf⟩
    cases hg : dictGet L kv.1 with
    | none => simp [hg] at hf
    | some lp =>
      simp only [hg] at hf
      by_cases hc : pyAbs (kv.2.sale_price - lp.sale_price) > 1/100
      · simp only [if_pos hc, Option.some.injEq] at hf
        exact ⟨kv, lp, hkv, hg, hc, hf.symm⟩
      · rw [if_neg hc] at hf
        simp at hf

theorem mem_validateProductsFor_mismatch_intro (M L : List (String × Product))
    (p : String) (kv : String × Product) (lp : Product) (hkv : kv ∈ M)
    (hg : dictGet L kv.1 = some lp)
    (hc : pyAbs (kv.2.sale_price - lp.sale_price) > 1/100) :
    ({ type := "PRICE_MISMATCH", pc_id := p, product_id := kv.1,
       master_price := some kv.2.sale_price,
       local_price := some lp.sale_price } : SyncIssue)
      ∈ validateProductsFor M L p := by
  unfold validateProductsFor
  refine List.mem_append.mpr (Or.inr ?_)
  refine List.mem_filterMap.mpr ⟨kv, hkv, ?_⟩
  simp only [hg]
  rw [if_pos hc]

theorem mem_validate_products_iff (db : String → List Product)
    (i : SyncIssue) :
    i ∈ validate_products db ↔
      ∃ pc, pc ∈ PC_CONFIG ∧ pc.id ≠ "PC-PDV-01" ∧
        i ∈ validateProductsFor (dictOf (db "PC-PDV-01"))
              (dictOf (db pc.id)) pc.id := by
  unfold validate_products
  simp only [List.mem_flatMap, List.mem_filter, decide_not,
    Bool.not_eq_eq_eq_not, Bool.not_true, decide_eq_false_iff_not]
  constructor
  · rintro ⟨pc, ⟨hpc, hne⟩, hmem⟩
    exact ⟨pc, hpc, hne, hmem⟩
  · rintro ⟨pc, hpc, hne, hmem⟩
    exact ⟨pc, ⟨hpc, hne⟩, hmem⟩

theorem pcId_of_mem_validateProductsFor (M L : List (String × Product))
    (p : String) (i : SyncIssue) (h : i ∈ validateProductsFor M L p) :
    i.pc_id = p := by
  rcases mem_validateProductsFor_elim M L p i h with ⟨kv, _, _, hi⟩ | ⟨kv, lp, _, _, _, hi⟩ <;>
    (subst hi; rfl)

end ContinuousTestRunner

namespace ContinuousTestRunner

open PyDict

theorem dictOf_ABC : dictOf [prodA, prodB, prodC]
    = [("A", prodA), ("B", prodB), ("C", prodC)] := by decide

theorem dictOf_AB : dictOf [prodA, prodB]
    = [("A", prodA), ("B", prodB)] := by decide

theorem filter_peers :
    PC_CONFIG.filter (fun pc => pc.id ≠ "PC-PDV-01")
      = [⟨"PC-PDV-02", "SATELLITE", "PDV", "💰"⟩,
         ⟨"PC-ESTQ", "SATELLITE", "STOCK", "📦"⟩,
         ⟨"PC-GER", "SATELLITE", "MANAGER", "📊"⟩,
         ⟨"PC-VEN-01", "SATELLITE", "SALES", "🛒"⟩,
         ⟨"PC-VEN-02", "SATELLITE", "SALES", "🛒"⟩,
         ⟨"PC-ADM", "SATELLITE", "ADMIN", "🔧"⟩,
         ⟨"PC-FIN", "SATELLITE", "FINANCE", "💵"⟩,
         ⟨"PC-CAD", "SATELLITE", "REGISTER", "📝"⟩,
         ⟨"PC-RESERVA", "SATELLITE", "PDV", "🔄"⟩] := by decide

theorem vpf_scenario_same (pcId : String) :
    validateProductsFor (dictOf [prodA, prodB, prodC])
      (dictOf [prodA, prodB, prodC]) pcId = [] := by
  rw [dictOf_ABC]
  simp [validateProductsFor, dictGet, prodA, prodB, prodC, pyAbs]

theorem vpf_scenario_estq :
    validateProductsFor (dictOf [prodA, prodB, prodC])
      (dictOf [prodA, prodB]) "PC-ESTQ"
      = [{ type := "MISSING_PRODUCT", pc_id := "PC-ESTQ", product_id := "C",
           details := some "Product Gamma missing on PC-ESTQ" }] := by
  rw [dictOf_ABC, dictOf_AB]
  simp [validateProductsFor, dictGet, prodA, prodB, prodC, pyAbs]

theorem validate_products_scenario_eval : validate_products scenarioDb =
    [{ type := "MISSING_PRODUCT", pc_id := "PC-ESTQ", product_id := "C",
       details := some "Product Gamma missing on PC-ESTQ" }] := by
  unfold validate_products
  rw [filter_peers]
  simp only [List.flatMap_cons, List.flatMap_nil, scenarioDb]
  simp [vpf_scenario_same, vpf_scenario_estq]

/-- C3: on the §8 scenario — reference node with products `{A, B, C}`, the
peer `PC-ESTQ` with `{A, B}` and fields equal on A and B — the divergence
pass produces exactly one finding: a `MISSING_PRODUCT` for entity C on
that peer, and no `PRICE_MISMATCH`.  In general, a `PRICE_MISMATCH`
finding for a peer and an entity exists exactly when the entity is present
in both dicts and the compared field (`sale_price`) differs by more than
the tolerance `0.01`, and every such finding records both the reference
(`master_price`) and the observed (`local_price`) value. -/
theorem c3_missing_entity_scenario_and_field_mismatch
    (db : String → List Product) (pc : PCInfo) (pid : String)
    (hpc : pc ∈ PC_CONFIG) (hne : pc.id ≠ "PC-PDV-01") :
    validate_products scenarioDb
      = [{ type := "MISSING_PRODUCT", pc_id := "PC-ESTQ", product_id := "C",
           details := some "Product Gamma missing on PC-ESTQ" }] ∧
    ((∃ i ∈ validate_products db, i.type = "PRICE_MISMATCH" ∧
        i.pc_id = pc.id ∧ i.product_id = pid) ↔
      (∃ mp lp, dictGet (dictOf (db "PC-PDV-01")) pid = some mp ∧
        dictGet (dictOf (db pc.id)) pid = some lp ∧
        pyAbs (mp.sale_price - lp.sale_price) > 1/100)) ∧
    (∀ i ∈ validate_products db, i.type = "PRICE_MISMATCH" →
      ∃ mp lp, dictGet (dictOf (db "PC-PDV-01")) i.product_id = some mp ∧
        dictGet (dictOf (db i.pc_id)) i.product_id = some lp ∧
        i.master_price = some mp.sale_price ∧
        i.local_price = some lp.sale_price ∧
        pyAbs (mp.sale_price - lp.sale_price) > 1/100) := by
  have htypes : ("MISSING_PRODUCT" : String) ≠ "PRICE_MISMATCH" := by decide
  refine ⟨validate_products_scenario_eval, ⟨?_, ?_⟩, ?_⟩
  · rintro ⟨i, hmem, htype, hpcid, hpid⟩
    rcases (mem_validate_products_iff db i).mp hmem with ⟨pc2, _, _, hfor⟩
    rcases mem_validateProductsFor_elim _ _ _ _ hfor with
      ⟨kv, _, _, hi⟩ | ⟨kv, lp, hkv, hg, hc, hi⟩
    · subst hi
      simp at htype
    · subst hi
      simp only at hpcid hpid
      subst hpid
      rw [hpcid] at hg
      refine ⟨kv.2, lp, ?_, hg, hc⟩
      exact dictGet_eq_some_of_mem_of_nodupKeys _ _ _
        (dictOf_nodupKeys (db "PC-PDV-01")) hkv
  · rintro ⟨mp, lp, hmp, hlp, hc⟩
    refine ⟨{ type := "PRICE_MISMATCH", pc_id := pc.id, product_id := pid,
              master_price := some mp.sale_price,
              local_price := some lp.sale_price }, ?_, rfl, rfl, rfl⟩
    refine (mem_validate_products_iff db _).mpr ⟨pc, hpc, hne, ?_⟩
    exact mem_validateProductsFor_mismatch_intro _ _ _ (pid, mp) lp
      (mem_of_dictGet_eq_some _ _ _ hmp) hlp hc
  · intro i hmem htype
    rcases (mem_validate_products_iff db i).mp hmem with ⟨pc2, _, _, hfor⟩
    rcases mem_validateProductsFor_elim _ _ _ _ hfor with
      ⟨kv, _, _, hi⟩ | ⟨kv, lp, hkv, hg, hc, hi⟩
    · subst hi
      simp at htype
    · subst hi
      refine ⟨kv.2, lp, ?_, ?_, rfl, rfl, hc⟩
      · exact dictGet_eq_some_of_mem_of_nodupKeys _ _ _
          (dictOf_nodupKeys (db "PC-PDV-01")) hkv
      · exact hg

end ContinuousTestRunner

namespace ContinuousTestRunner

open PyDict

theorem c3_missing_entity_scenario_and_field_mismatch_witness :
    (⟨"PC-ESTQ", "SATELLITE", "STOCK", "📦"⟩ : PCInfo) ∈ PC_CONFIG ∧
    ("PC-ESTQ" : String) ≠ "PC-PDV-01" ∧
    validate_products scenarioDb
      = [{ type := "MISSING_PRODUCT", pc_id := "PC-ESTQ", product_id := "C",
           details := some "Product Gamma missing on PC-ESTQ" }] :=
  ⟨by decide, by decide,
    (c3_missing_entity_scenario_and_field_mismatch scenarioDb
      ⟨"PC-ESTQ", "SATELLITE", "STOCK", "📦"⟩ "A" (by decide) (by decide)).1⟩

/-- C9: the divergence detector is deterministic — its findings are a pure
function of the node datasets, independent of the validator's prior state
and of the pass timestamp; the stored `inconsistencies` after a pass equal
exactly that pass's output (full replacement, no merge with the previous
findings); and for an entity present on the reference node and a peer with
equal compared field there is no finding at all for that peer/entity pair
(a corrected mismatch disappears from the next pass). -/
theorem c9_validator_determinism_and_replacement (st1 st2 : ValidatorState)
    (db : String → List Product) (t1 t2 : String) (pcId pid : String)
    (mp lp : Product)
    (hmp : dictGet (dictOf (db "PC-PDV-01")) pid = some mp)
    (hlp : dictGet (dictOf (db pcId)) pid = some lp)
    (heq : mp.sale_price = lp.sale_price) :
    (validateProductsRun st1 db t1).2 = (validateProductsRun st2 db t2).2 ∧
    (validateProductsRun st1 db t1).1.inconsistencies
      = (validateProductsRun st1 db t1).2 ∧
    (validateProductsRun st1 db t1).1.inconsistencies = validate_products db ∧
    (∀ i ∈ validate_products db, ¬ (i.pc_id = pcId ∧ i.product_id = pid)) := by
  refine ⟨rfl, rfl, rfl, ?_⟩
  rintro i hmem ⟨hpcid, hpid⟩
  rcases (mem_validate_products_iff db i).mp hmem with ⟨pc2, _, _, hfor⟩
  rcases mem_validateProductsFor_elim _ _ _ _ hfor with
    ⟨kv, hkv, hg, hi⟩ | ⟨kv, lp2, hkv, hg, hc, hi⟩
  · subst hi
    simp only at hpcid hpid
    subst hpid
    rw [hpcid] at hg
    rw [hg] at hlp
    exact Option.noConfusion hlp
  · subst hi
    simp only at hpcid hpid
    subst hpid
    rw [hpcid] at hg
    rw [hg] at hlp
    have hm2 : dictGet (dictOf (db "PC-PDV-01")) kv.1 = some kv.2 :=
      dictGet_eq_some_of_mem_of_nodupKeys _ _ _
        (dictOf_nodupKeys (db "PC-PDV-01")) hkv
    rw [hm2] at hmp
    have hmp2 : kv.2 = mp := by injection hmp
    have hlp2 : lp2 = lp := by injection hlp
    rw [hmp2, hlp2, heq] at hc
    simp only [pyAbs, sub_self] at hc
    norm_num at hc

theorem c9_validator_determinism_and_replacement_witness :
    dictGet (dictOf (scenarioDb "PC-PDV-01")) "A" = some prodA ∧
    dictGet (dictOf (scenarioDb "PC-ESTQ")) "A" = some prodA ∧
    (validateProductsRun { last_check := none, inconsistencies := [] }
        scenarioDb "t1").2
      = (validateProductsRun
          { last_check := some "t0",
            inconsistencies := [{ type := "PRICE_MISMATCH", pc_id := "p",
                                  product_id := "q" }] } scenarioDb "t2").2 :=
  ⟨by decide, by decide,
    (c9_validator_determinism_and_replacement
      { last_check := none, inconsistencies := [] }
      { last_check := some "t0",
        inconsistencies := [{ type := "PRICE_MISMATCH", pc_id := "p",
                              product_id := "q" }] }
      scenarioDb "t1" "t2" "PC-ESTQ" "A" prodA prodA
      (by decide) (by decide) rfl).1⟩

theorem vpf_one_same (pcId : String) :
    validateProductsFor (dictOf [prodA]) (dictOf [prodA]) pcId = [] := by
  simp [validateProductsFor, dictOf, dictSet, dictGet, prodA, pyAbs]

theorem vpf_one_estq :
    validateProductsFor (dictOf [prodA]) (dictOf []) "PC-ESTQ"
      = [{ type := "MISSING_PRODUCT", pc_id := "PC-ESTQ", product_id := "A",
           details := some "Product Alpha missing on PC-ESTQ" }] := by
  simp [validateProductsFor, dictOf, dictSet, dictGet, prodA, pyAbs]

/-- C6 fails as stated: in the SyncValidator's entity-set divergence pass
(`validate_products`) there is no missing-id tolerance at all — with a
single id missing on one peer (1 ≤ 5) the pass still emits a
`MISSING_PRODUCT` finding instead of only logging at debug level. -/
theorem c6_missing_tolerance_counterexample :
    validate_products oneMissingDb
      = [{ type := "MISSING_PRODUCT", pc_id := "PC-ESTQ", product_id := "A",
           details := some "Product Alpha missing on PC-ESTQ" }] ∧
    (1 : Nat) ≤ 5 := by
  refine ⟨?_, by decide⟩
  unfold validate_products
  rw [filter_peers]
  simp only [List.flatMap_cons, List.flatMap_nil, oneMissingDb]
  simp [vpf_one_same, vpf_one_estq]

end ContinuousTestRunner

namespace MultiPcTestHarness

open PyDict

/-- C6, amended: the ≤5 missing-id tolerance lives in the harness's
stock-consistency check, not in the SyncValidator's entity-set pass.  For
a satellite node, `test_stock_consistency` passes (returns no failure)
whenever at most 5 seed ids are missing — they are only logged at debug
level — and fails with exactly the one message `"Missing N seed products
on <pc>"` when more than 5 are missing.  (`validate_products`, by
contrast, emits a finding for every missing id; see the counterexample.) -/
theorem c6_stock_consistency_tolerance (pcId : String) (mws : Nat)
    (masterIds localIds : List String) (hne : pcId ≠ "PC-PDV-01") :
    (((masterIds.eraseDups).filter
        (fun a => !localIds.contains a)).length ≤ 5 →
      test_stock_consistency pcId mws masterIds localIds = []) ∧
    (((masterIds.eraseDups).filter
        (fun a => !localIds.contains a)).length > 5 →
      test_stock_consistency pcId mws masterIds localIds
        = ["Missing " ++ toString ((masterIds.eraseDups).filter
              (fun a => !localIds.contains a)).length
            ++ " seed products on " ++ pcId]) := by
  unfold test_stock_consistency
  rw [if_neg hne]
  constructor
  · intro hle
    dsimp only
    split_ifs with h1 h2
    · exact absurd h2 (not_lt.mpr hle)
    · rfl
    · rfl
  · intro hgt
    dsimp only
    split_ifs with h1
    · rfl
    · rw [not_not] at h1
      rw [h1] at hgt
      simp at hgt

theorem c6_stock_consistency_tolerance_witness :
    ("PC-ESTQ" : String) ≠ "PC-PDV-01" ∧
    test_stock_consistency "PC-ESTQ" 0 ["a", "b", "c", "d", "e", "f"] []
      = ["Missing 6 seed products on PC-ESTQ"] ∧
    test_stock_consistency "PC-ESTQ" 0 ["a", "b"] [] = [] := by
  refine ⟨by decide, ?_, ?_⟩
  · have h := (c6_stock_consistency_tolerance "PC-ESTQ" 0
      ["a", "b", "c", "d", "e", "f"] [] (by decide)).2 (by decide)
    rw [h]
    rfl
  · exact (c6_stock_consistency_tolerance "PC-ESTQ" 0
      ["a", "b"] [] (by decide)).1 (by decide)

end MultiPcTestHarness

namespace MultiPcTestHarness

open PyDict

theorem register_fresh (reg : TestRegistry) (r : TestResult)
    (h : dictGet reg.results r.test_id = none) :
    (reg.register r).results.length = reg.results.length + 1 ∧
    dictGet (reg.register r).results r.test_id = some r :=
  ⟨dictSet_length_of_get_none _ _ _ h, dictGet_dictSet_self _ _ _⟩

/-- C2: `run_test` classifies the check function's outcome exhaustively —
an empty (or non-list) return is PASSED, a non-empty list of failure
strings is FAILED with exactly those messages, an `AssertionError` is
FAILED with the assertion message preserved verbatim, and any other
exception is ERROR (the spec's ERRORED) with the cause captured in the
separate `error` field and no failure messages; exactly one terminal
status is recorded, the duration measured around the call is non-negative,
and the result is registered into the registry exactly once (under its
fresh id the registry grows by exactly one entry holding this result). -/
theorem c2_run_test_classification (reg : TestRegistry) (inp : RunTestInput)
    (hdur : inp.startTime ≤ inp.endTime)
    (hfresh : dictGet reg.results
      (inp.pcId ++ "_" ++ inp.testName ++ "_" ++ inp.uuidSuffix) = none) :
    ((inp.outcome = TestFnOutcome.retList [] ∨
        inp.outcome = TestFnOutcome.retOther) →
      (run_test reg inp).2.status = TestStatus.PASSED ∧
      (run_test reg inp).2.failures = []) ∧
    (∀ fs, fs ≠ [] → inp.outcome = TestFnOutcome.retList fs →
      (run_test reg inp).2.status = TestStatus.FAILED ∧
      (run_test reg inp).2.failures = fs ∧
      (run_test reg inp).2.error = none) ∧
    (∀ m, inp.outcome = TestFnOutcome.assertionError m →
      (run_test reg inp).2.status = TestStatus.FAILED ∧
      (run_test reg inp).2.failures = [m] ∧
      (run_test reg inp).2.error = none) ∧
    (∀ m, inp.outcome = TestFnOutcome.exc m →
      (run_test reg inp).2.status = TestStatus.ERROR ∧
      (run_test reg inp).2.failures = [] ∧
      (run_test reg inp).2.error = some m) ∧
    ((run_test reg inp).2.status = TestStatus.PASSED ∨
      (run_test reg inp).2.status = TestStatus.FAILED ∨
      (run_test reg inp).2.status = TestStatus.ERROR) ∧
    0 ≤ (run_test reg inp).2.duration_ms ∧
    ((run_test reg inp).1.results.length = reg.results.length + 1 ∧
      dictGet (run_test reg inp).1.results (run_test reg inp).2.test_id
        = some (run_test reg inp).2) := by
  obtain ⟨pcId, testName, category, uuidSuffix, sT, eT, outcome⟩ := inp
  simp only at hdur hfresh
  have hdur' : (0 : ℚ) ≤ (eT - sT) * 1000 :=
    mul_nonneg (sub_nonneg.mpr hdur) (by norm_num)
  cases outcome with
  | retList fs =>
    by_cases hfs : fs = []
    · subst hfs
      refine ⟨fun _ => ⟨rfl, rfl⟩, ?_, ?_, ?_, Or.inl rfl, hdur',
        register_fresh reg _ hfresh⟩
      · rintro fs2 hfs2 heq
        injection heq with h2
        exact absurd h2.symm hfs2
      · exact fun m heq => TestFnOutcome.noConfusion heq
      · exact fun m heq => TestFnOutcome.noConfusion heq
    · refine ⟨?_, ?_, ?_, ?_, Or.inr (Or.inl ?_), hdur',
        register_fresh reg _ hfresh⟩
      · rintro (heq | heq)
        · injection heq with h2
          exact absurd h2 hfs
        · exact TestFnOutcome.noConfusion heq
      · rintro fs2 hfs2 heq
        injection heq with h2
        subst h2
        refine ⟨?_, ?_, ?_⟩ <;> simp [run_test, hfs]
      · exact fun m heq => TestFnOutcome.noConfusion heq
      · exact fun m heq => TestFnOutcome.noConfusion heq
      · simp [run_test, hfs]
  | retOther =>
    refine ⟨fun _ => ⟨rfl, rfl⟩, ?_, ?_, ?_, Or.inl rfl, hdur',
      register_fresh reg _ hfresh⟩
    · exact fun fs2 hfs2 heq => TestFnOutcome.noConfusion heq
    · exact fun m heq => TestFnOutcome.noConfusion heq
    · exact fun m heq => TestFnOutcome.noConfusion heq
  | assertionError m =>
    refine ⟨?_, ?_, ?_, ?_, Or.inr (Or.inl rfl), hdur',
      register_fresh reg _ hfresh⟩
    · rintro (heq | heq) <;> exact TestFnOutcome.noConfusion heq
    · exact fun fs2 hfs2 heq => TestFnOutcome.noConfusion heq
    · rintro m2 heq
      injection heq with h2
      subst h2
      exact ⟨rfl, rfl, rfl⟩
    · exact fun m2 heq => TestFnOutcome.noConfusion heq
  | exc m =>
    refine ⟨?_, ?_, ?_, ?_, Or.inr (Or.inr rfl), hdur',
      register_fresh reg _ hfresh⟩
    · rintro (heq | heq) <;> exact TestFnOutcome.noConfusion heq
    · exact fun fs2 hfs2 heq => TestFnOutcome.noConfusion heq
    · exact fun m2 heq => TestFnOutcome.noConfusion heq
    · rintro m2 heq
      injection heq with h2
      subst h2
      exact ⟨rfl, rfl, rfl⟩

theorem c2_run_test_classification_witness :
    ((0 : ℚ) ≤ 1) ∧
    (run_test { results := [] }
        { pcId := "PC-ESTQ", testName := "test_stock_consistency",
          category := "SYNC", uuidSuffix := "deadbeef", startTime := 0,
          endTime := 1,
          outcome := TestFnOutcome.assertionError "boom" }).2.status
      = TestStatus.FAILED ∧
    (run_test { results := [] }
        { pcId := "PC-ESTQ", testName := "test_stock_consistency",
          category := "SYNC", uuidSuffix := "deadbeef", startTime := 0,
          endTime := 1,
          outcome := TestFnOutcome.assertionError "boom" }).2.failures
      = ["boom"] := by
  have h := (c2_run_test_classification { results := [] }
    { pcId := "PC-ESTQ", testName := "test_stock_consistency",
      category := "SYNC", uuidSuffix := "deadbeef", startTime := 0,
      endTime := 1, outcome := TestFnOutcome.assertionError "boom" }
    (by norm_num) rfl).2.2.1 "boom" rfl
  exact ⟨by norm_num, h.1, h.2.1⟩

/-- C10: the registry's pass-rate is `passed / total` over all registered
results, rendered with one decimal: a registry with 10 results of which 7
are PASSED, 2 FAILED and 1 ERROR reports `"70.0%"`, and an empty registry
reports `"N/A"` (the zero-total branch never divides). -/
theorem c10_pass_rate_computation :
    (TestRegistry.get_summary sampleRegistry 5 0).total = 10 ∧
    (TestRegistry.get_summary sampleRegistry 5 0).passed = 7 ∧
    (TestRegistry.get_summary sampleRegistry 5 0).failed = 2 ∧
    (TestRegistry.get_summary sampleRegistry 5 0).errors = 1 ∧
    (TestRegistry.get_summary sampleRegistry 5 0).pass_rate = "70.0%" ∧
    (TestRegistry.get_summary { results := [] } 5 0).pass_rate = "N/A" := by
  refine ⟨by decide, by decide, by decide, by decide, by decide, by decide⟩

/-- C5, amended: `run_parallel_tests` drains `as_completed` with no
timeout argument, so it waits for every node batch; a fault escaping one
node's batch only produces an error-log entry for that node and leaves the
other batches' handling unchanged; and `TestStatus` has no timeout member,
so no TestResult is ever timeout-classified. -/
theorem c5_orchestrator_no_timeout (batches : List (String × BatchOutcome)) :
    run_parallel_tests batches
      = batches.filterMap (fun b =>
          match b.2 with
          | .completed _ => none
          | .raised m => some (b.1, "Test execution failed: " ++ m)) ∧
    (∀ s : TestStatus, s = TestStatus.PENDING ∨ s = TestStatus.RUNNING ∨
      s = TestStatus.PASSED ∨ s = TestStatus.FAILED ∨
      s = TestStatus.SKIPPED ∨ s = TestStatus.ERROR) := by
  constructor
  · unfold run_parallel_tests
    suffices h : ∀ acc : List (String × String),
        batches.foldl
          (fun logs b =>
            match b.2 with
            | .completed _ => logs
            | .raised m => logs ++ [(b.1, "Test execution failed: " ++ m)]) acc
          = acc ++ batches.filterMap (fun b =>
              match b.2 with
              | .completed _ => none
              | .raised m => some (b.1, "Test execution failed: " ++ m)) by
      simpa using h []
    induction batches with
    | nil => intro acc; simp
    | cons b bs ih =>
      intro acc
      cases hb : b.2 with
      | completed rs => simp [hb, ih]
      | raised m => simp [hb, ih]
  · intro s
    cases s <;> simp

/-- C5 fails as stated: the complete set of TestResult classifications is
exactly {PENDING, RUNNING, PASSED, FAILED, SKIPPED, ERROR} — there is no
timeout-classified terminal outcome distinct from the ERROR (Fault)
classification, and `run_parallel_tests` takes no per-batch timeout, so a
hung batch would be awaited indefinitely rather than marked. -/
theorem c5_timeout_status_counterexample :
    (Finset.univ : Finset TestStatus)
      = {TestStatus.PENDING, TestStatus.RUNNING, TestStatus.PASSED,
         TestStatus.FAILED, TestStatus.SKIPPED, TestStatus.ERROR} ∧
    Fintype.card TestStatus = 6 := by
  refine ⟨by decide, by decide⟩

end MultiPcTestHarness

namespace ContinuousTestRunner

theorem c1_health_status_level_invariant_witness :
    ((checkPc "PC-GER" "t0"
        { dbExists := true, employeeCount := 0, productCount := 50,
          saleCount := 0, hasNetworkSettings := true, logExists := false,
          logHasMasterConn := false, logHasErrorMarker := false }).status
        = "ERROR" ↔
      (checkPc "PC-GER" "t0"
        { dbExists := true, employeeCount := 0, productCount := 50,
          saleCount := 0, hasNetworkSettings := true, logExists := false,
          logHasMasterConn := false, logHasErrorMarker := false }).errors
        ≠ []) :=
  (c1_health_status_level_invariant "PC-GER" "t0"
    { dbExists := true, employeeCount := 0, productCount := 50,
      saleCount := 0, hasNetworkSettings := true, logExists := false,
      logHasMasterConn := false, logHasErrorMarker := false }).1

end ContinuousTestRunner

namespace MultiPcTestHarness

theorem c5_orchestrator_no_timeout_witness :
    run_parallel_tests
        [("PC-PDV-01", BatchOutcome.completed []),
         ("PC-ESTQ", BatchOutcome.raised "boom")]
      = [("PC-ESTQ", "Test execution failed: boom")] := by
  rw [(c5_orchestrator_no_timeout
    [("PC-PDV-01", BatchOutcome.completed []),
     ("PC-ESTQ", BatchOutcome.raised "boom")]).1]
  rfl

end MultiPcTestHarness
